import Mathlib

/-!
Verification development for the debugpy-mcp-server DAP protocol bridge.

The definitions below are a shallow embedding of the Python sources:
  - `debugpy_client.py` (class `DebugpyClient`): session registry, breakpoints,
    synchronous request sending.
  - `dap_client.py` (class `DAPClient`): connect/disconnect lifecycle and the
    request/response correlator with its background receive loop.

Python dictionaries are modelled as association lists with dict-like insert
(replace on key collision), sockets as booleans plus a ghost log of the
requests written to them, and the debug adapter on the far end of the socket
as an oracle function from commands to optional responses (`none` models a
missing/late response or an I/O error, both of which the Python code folds
into the same failure path).
-/

/-- Association-list lookup, first binding wins (Python dict access). -/
def lookupM {α : Type} (m : List (String × α)) (k : String) : Option α :=
  (m.find? (fun p => p.1 == k)).map (fun p => p.2)

/-- Key membership test (Python `k in d`). -/
def memM {α : Type} (m : List (String × α)) (k : String) : Bool :=
  m.any (fun p => p.1 == k)

/-- Remove every binding of a key (Python `del d[k]`). -/
def eraseM {α : Type} (m : List (String × α)) (k : String) : List (String × α) :=
  m.filter (fun p => p.1 != k)

/-- Dict assignment `d[k] = v`: replaces any previous binding of `k`. -/
def insertM {α : Type} (m : List (String × α)) (k : String) (v : α) : List (String × α) :=
  (k, v) :: eraseM m k

/-- In-place mutation of the value stored under `k` (Python mutates the object
fetched from the dict, which updates the dict's view of it). -/
def updateM {α : Type} (m : List (String × α)) (k : String) (f : α → α) : List (String × α) :=
  m.map (fun p => if p.1 == k then (p.1, f p.2) else p)

/-- Model of `models.DebugSession` (models.py lines 9-16). -/
structure DebugSession where
  session_id : String
  host : String
  port : Nat
  is_connected : Bool
  process_id : Option Nat
  status : String
deriving Repr, DecidableEq

/-- Model of `models.Breakpoint` (models.py lines 19-26). -/
structure Breakpoint where
  breakpoint_id : Nat
  file_path : String
  line_number : Nat
  is_enabled : Bool
  condition : Option String
  hit_count : Nat
deriving Repr, DecidableEq

/-- One entry of the `breakpoints` array in a `setBreakpoints` request body
(debugpy_client.py lines 120-126: a line plus an optional condition). -/
structure BpEntry where
  line : Nat
  condition : Option String
deriving Repr, DecidableEq

/-- Arguments of an outgoing DAP request, kept only as precisely as the claims
need: `setBreakpoints` bodies are modelled exactly (source path plus the
declared breakpoint list), all other argument dictionaries are opaque. -/
inductive ReqArgs where
  | setBps (path : String) (entries : List BpEntry)
  | initArgs
  | otherArgs (desc : String)
deriving Repr, DecidableEq

/-- The slice of a DAP response envelope the client code inspects:
`response.get("success")` (dap_client.py line 58, debugpy_client.py line 128). -/
structure DAPResponse where
  success : Bool
deriving Repr, DecidableEq

/-- Ghost record of one request written to a socket. -/
structure SentRequest where
  seq : Nat
  command : String
  args : ReqArgs
deriving Repr, DecidableEq

/-- The debug adapter on the far side of a socket, as seen by the synchronous
send path of `DebugpyClient._send_request`: a response per command, where
`none` models an I/O error or an unparsable reply (the Python code catches
those and returns `None`). -/
def Adapter : Type := String → ReqArgs → Option DAPResponse

/-- State of `DebugpyClient` (debugpy_client.py lines 24-29).  `connections`
holds the session ids that own an open socket; `sent` is the ghost log of
requests written to any of those sockets, in order. -/
structure DebugpyClient where
  sessions : List (String × DebugSession)
  connections : List String
  breakpoints : List (String × List Breakpoint)
  sequence_number : Nat
  sent : List SentRequest
deriving Repr, DecidableEq

/-- The client as constructed by `DebugpyClient.__init__` (lines 24-29):
empty maps and the sequence counter at 1. -/
def emptyClient : DebugpyClient := ⟨[], [], [], 1, []⟩

/-- Dict-key insertion for the `connections` map (only keys are modelled). -/
def insertConn (conns : List String) (sid : String) : List String :=
  sid :: conns.filter (fun x => x != sid)

/-- Embedding of `DebugpyClient._send_request` (debugpy_client.py lines
323-353): missing connection returns `None` before touching the counter;
otherwise the next sequence number is allocated, the framed request is written
to the socket (recorded in the ghost log) and the synchronous reply of the
adapter is returned, `none` standing for any caught exception. -/
def DebugpyClient.send_request (c : DebugpyClient) (adapter : Adapter)
    (session_id : String) (command : String) (args : ReqArgs) :
    DebugpyClient × Option DAPResponse :=
  if c.connections.contains session_id then
    let seq := c.sequence_number
    let c1 : DebugpyClient :=
      { c with sequence_number := seq + 1, sent := c.sent ++ [⟨seq, command, args⟩] }
    (c1, adapter command args)
  else (c, none)

/-- Embedding of `DebugpyClient.create_session` (lines 31-45).  The uuid4
session id is supplied by the caller; the code stores a fresh `DebugSession`
with status "created" and an empty breakpoint list under the same key. -/
def DebugpyClient.create_session (c : DebugpyClient) (session_id host : String)
    (port : Nat) : DebugpyClient :=
  let session : DebugSession := ⟨session_id, host, port, false, none, "created"⟩
  { c with sessions := insertM c.sessions session_id session,
           breakpoints := insertM c.breakpoints session_id [] }

/-- Embedding of `DebugpyClient.connect_session` (lines 47-86).  `sockOk`
models whether the TCP connect raises; that is the only statement of the
`try` block that can raise, since `_send_request` swallows its own
exceptions.  On socket failure the status is updated and `False` returned;
otherwise the socket is registered, one `initialize` request is sent and its
response is DISCARDED, after which the session is unconditionally marked
connected and `True` is returned. -/
def DebugpyClient.connect_session (c : DebugpyClient) (adapter : Adapter)
    (sockOk : Bool) (session_id : String) : DebugpyClient × Bool :=
  if memM c.sessions session_id then
    if sockOk then
      let c1 : DebugpyClient := { c with connections := insertConn c.connections session_id }
      let c2 := (c1.send_request adapter session_id "initialize" ReqArgs.initArgs).1
      ({ c2 with sessions := (updateM c2.sessions session_id
          (fun s => { s with is_connected := true, status := "connected" })) }, true)
    else
      ({ c with sessions := (updateM c.sessions session_id
          (fun s => { s with status := "connection_failed" })) }, false)
  else (c, false)

/-- Embedding of `DebugpyClient.disconnect_session` (lines 88-107): unknown id
returns `False`; otherwise the connection entry (if any) is removed, the
session is marked disconnected and `True` is returned.  Neither the
`sessions` nor the `breakpoints` map loses its entry. -/
def DebugpyClient.disconnect_session (c : DebugpyClient) (session_id : String) :
    DebugpyClient × Bool :=
  if memM c.sessions session_id then
    let c1 : DebugpyClient :=
      { c with connections := c.connections.filter (fun x => x != session_id) }
    ({ c1 with sessions := (updateM c1.sessions session_id
        (fun s => { s with is_connected := false, status := "disconnected" })) }, true)
  else (c, false)

/-- Embedding of `DebugpyClient.set_breakpoint` (lines 109-143): fails with
`None` when the session is unknown or not connected; the new breakpoint id is
`len(breakpoints[session_id]) + 1`; one `setBreakpoints` request carrying only
the NEW breakpoint is sent, and on a successful response the breakpoint is
appended to the session's list.  A missing `breakpoints` entry would raise
`KeyError`, caught by the `except` and returned as `None`. -/
def DebugpyClient.set_breakpoint (c : DebugpyClient) (adapter : Adapter)
    (session_id file_path : String) (line_number : Nat) (condition : Option String) :
    DebugpyClient × Option Breakpoint :=
  match lookupM c.sessions session_id with
  | none => (c, none)
  | some s =>
    if s.is_connected then
      match lookupM c.breakpoints session_id with
      | none => (c, none)
      | some bps =>
        let bp_id := bps.length + 1
        let r := c.send_request adapter session_id "setBreakpoints"
            (ReqArgs.setBps file_path [⟨line_number, condition⟩])
        match r.2 with
        | some resp =>
          if resp.success then
            let bp : Breakpoint := ⟨bp_id, file_path, line_number, true, condition, 0⟩
            ({ r.1 with breakpoints := (updateM r.1.breakpoints session_id
                (fun l => l ++ [bp])) }, some bp)
          else (r.1, none)
        | none => (r.1, none)
    else (c, none)

/-- Embedding of `DebugpyClient.clear_breakpoint` (lines 145-167): a missing
`breakpoints` entry returns `False`; otherwise the FIRST breakpoint with the
given id is looked up, a `setBreakpoints` request with an EMPTY breakpoint
list for that file is sent (its outcome ignored — `_send_request` cannot
raise), the breakpoint is popped from the session's list and `True` is
returned.  Note the code never checks that the session is connected. -/
def DebugpyClient.clear_breakpoint (c : DebugpyClient) (adapter : Adapter)
    (session_id : String) (breakpoint_id : Nat) : DebugpyClient × Bool :=
  match lookupM c.breakpoints session_id with
  | none => (c, false)
  | some bps =>
    match bps.find? (fun bp => bp.breakpoint_id == breakpoint_id) with
    | none => (c, false)
    | some bp =>
      let r := c.send_request adapter session_id "setBreakpoints"
          (ReqArgs.setBps bp.file_path [])
      ({ r.1 with breakpoints := (updateM r.1.breakpoints session_id
          (fun l => l.eraseP (fun b => b.breakpoint_id == breakpoint_id))) }, true)

/-- Embedding of `DebugpyClient.get_session` (lines 391-393). -/
def DebugpyClient.get_session (c : DebugpyClient) (session_id : String) :
    Option DebugSession :=
  lookupM c.sessions session_id

/-- Embedding of `DebugpyClient.list_breakpoints` (lines 399-401):
`self.breakpoints.get(session_id, [])` — an unknown session id yields the
default empty list, not an error. -/
def DebugpyClient.list_breakpoints (c : DebugpyClient) (session_id : String) :
    List Breakpoint :=
  (lookupM c.breakpoints session_id).getD []

/-- The adapter-side oracle as seen by `DAPClient._send_request`: a response
per command, `none` modelling a timeout or a send error (both return `None`
in the Python code). -/
def Oracle : Type := String → Option DAPResponse

/-- State of `DAPClient` (dap_client.py lines 19-27) as needed by the
straight-line lifecycle claims: the connected flag, whether `self.socket` is
a live object, the sequence counter (starts at 1) and the ghost log of
requests written to the socket as `(seq, command)` pairs.  The
pending/response correlator of the same class is modelled separately below as
an interleaved transition system. -/
structure DAPClient where
  is_connected : Bool
  socketOpen : Bool
  sequence_number : Nat
  sent : List (Nat × String)
deriving Repr, DecidableEq

/-- Embedding of the send path of `DAPClient._send_request` (dap_client.py
lines 144-182) for straight-line callers: the guard at lines 146-147 returns
`None` when `is_connected` is false or the socket is gone, BEFORE sending
anything; otherwise a sequence number is allocated, the framed request is
written and the correlated response (or `none` on timeout/error) returned. -/
def DAPClient.send_request (c : DAPClient) (oracle : Oracle) (command : String) :
    DAPClient × Option DAPResponse :=
  if c.is_connected && c.socketOpen then
    let seq := c.sequence_number
    ({ c with sequence_number := seq + 1, sent := c.sent ++ [(seq, command)] }, oracle command)
  else (c, none)

/-- Embedding of `DAPClient.connect` (dap_client.py lines 29-68).  `sockOk`
models whether the TCP connect raises.  On socket success the connected flag
is set and `initialize` is sent; only if its response exists and has
`success` true is `configurationDone` sent, the return value then being the
truthiness of `config_response and config_response.get("success", True)`
(line 61).  If `initialize` fails or yields no response, `False` is returned
at line 63 — note the connected flag is NOT reset on that path. -/
def DAPClient.connect (c : DAPClient) (oracle : Oracle) (sockOk : Bool) :
    DAPClient × Bool :=
  if sockOk then
    let c1 : DAPClient := { c with socketOpen := true, is_connected := true }
    let r1 := c1.send_request oracle "initialize"
    match r1.2 with
    | some resp =>
      if resp.success then
        let r2 := r1.1.send_request oracle "configurationDone"
        (r2.1, match r2.2 with
               | some cfg => cfg.success
               | none => false)
      else (r1.1, false)
    | none => (r1.1, false)
  else ({ c with is_connected := false }, false)

/-- Embedding of `DAPClient.disconnect` (dap_client.py lines 70-84): the
connected flag is cleared FIRST (line 72), then, if a socket exists, the code
calls `_send_request("disconnect", ...)` and closes the socket; exceptions in
that block are swallowed, and the receive thread is joined with a one second
bound (line 84, no state effect to model). -/
def DAPClient.disconnect (c : DAPClient) (oracle : Oracle) : DAPClient :=
  let c1 : DAPClient := { c with is_connected := false }
  if c1.socketOpen then
    let r := c1.send_request oracle "disconnect"
    { r.1 with socketOpen := false }
  else c1

/-- The fixed per-request timeout of `event.wait(timeout=10)` at
dap_client.py line 171, in seconds. -/
def requestTimeoutSeconds : Nat := 10

/-- Interleaved state of the request/response correlator of `DAPClient`
(dap_client.py lines 144-182 and 230-249), shared between the caller threads
and the receive-loop thread.  `pending` is the key set of
`self.pending_requests`, `responses` models `self.responses` (payload
abstracted to the `success` flag), `eventSet` records which waiters'
`threading.Event`s have been set.  `waiting` (callers blocked in
`event.wait`), `timedOut` (callers whose wait returned False but whose
`finally` block has not yet run) and `done` (callers that returned, with
their result — `none` is the `return None` of the timeout path) are ghost
program counters of the caller threads. -/
structure Correlator where
  seqCtr : Nat
  pending : List Nat
  responses : List (Nat × Bool)
  eventSet : List Nat
  waiting : List Nat
  timedOut : List Nat
  done : List (Nat × Option Bool)
deriving Repr, DecidableEq

/-- Correlator state of a freshly constructed `DAPClient` (lines 21-23):
counter at 1, no pending requests, no stored responses. -/
def initCorr : Correlator := ⟨1, [], [], [], [], [], []⟩

/-- Lookup in the Nat-keyed `responses` dict. -/
def lookupN (m : List (Nat × Bool)) (k : Nat) : Option Bool :=
  (m.find? (fun p => p.1 == k)).map (fun p => p.2)

/-- Lines 149-162 of `_send_request`: allocate the next sequence number under
the lock, register the waiter in `pending_requests`, and block in
`event.wait`.  Returns the new state and the allocated sequence number. -/
def sendStep (s : Correlator) : Correlator × Nat :=
  let seq := s.seqCtr
  ({ s with seqCtr := seq + 1,
            pending := seq :: s.pending,
            waiting := seq :: s.waiting }, seq)

/-- Lines 234-239 of `_handle_message`, run on the receive-loop thread: a
response whose `request_seq` is in `pending_requests` is stored in
`responses` and its event set; any other response is silently dropped with
no state change. -/
def handleResponse (s : Correlator) (seq : Nat) (msg : Bool) : Correlator :=
  if s.pending.contains seq then
    { s with responses := (seq, msg) :: s.responses.filter (fun p => p.1 != seq),
             eventSet := seq :: s.eventSet }
  else s

/-- Lines 171-173 plus the `finally` at line 182: `event.wait` returned True,
the caller pops its response and its pending entry and returns the
response. -/
def waitSuccessStep (s : Correlator) (seq : Nat) : Correlator × Option Bool :=
  let res := lookupN s.responses seq
  ({ s with waiting := s.waiting.filter (fun x => x != seq),
            responses := s.responses.filter (fun p => p.1 != seq),
            pending := s.pending.filter (fun x => x != seq),
            done := (seq, res) :: s.done }, res)

/-- Line 171 deciding the timeout branch: `event.wait(timeout=10)` returned
False, which the threading library guarantees only when the event was not
set at expiry.  The caller thread is now between the `return None` decision
and its `finally` block. -/
def waitTimeoutStep (s : Correlator) (seq : Nat) : Correlator :=
  { s with waiting := s.waiting.filter (fun x => x != seq),
           timedOut := seq :: s.timedOut }

/-- Lines 174-176 and the `finally` at line 182 on the timeout branch: the
pending entry is popped and `None` returned.  `self.responses` is NOT
touched on this path. -/
def timeoutFinalizeStep (s : Correlator) (seq : Nat) : Correlator :=
  { s with timedOut := s.timedOut.filter (fun x => x != seq),
           pending := s.pending.filter (fun x => x != seq),
           done := (seq, none) :: s.done }

/-- The exit path of `DAPClient._receive_loop` (dap_client.py lines 190-228):
on a zero-length read or any receive error the loop simply `break`s out and
the thread ends.  No pending waiter, stored response or flag is touched —
the function body past the loop is empty. -/
def receiveLoopExit (s : Correlator) : Correlator := s

/-- One interleaved step of the correlator: a caller sending a request, the
receive loop delivering an arbitrary response, a caller waking on a set
event, a caller timing out, or a timed-out caller running its `finally`
block. -/
inductive CStep : Correlator → Correlator → Prop where
  | send (s : Correlator) : CStep s (sendStep s).1
  | recv (s : Correlator) (seq : Nat) (msg : Bool) : CStep s (handleResponse s seq msg)
  | waitOk (s : Correlator) (seq : Nat) (h1 : seq ∈ s.waiting) (h2 : seq ∈ s.eventSet) :
      CStep s (waitSuccessStep s seq).1
  | waitTo (s : Correlator) (seq : Nat) (h1 : seq ∈ s.waiting) (h2 : seq ∉ s.eventSet) :
      CStep s (waitTimeoutStep s seq)
  | toFin (s : Correlator) (seq : Nat) (h : seq ∈ s.timedOut) :
      CStep s (timeoutFinalizeStep s seq)

/-- Correlator states reachable from a fresh client by interleaved steps. -/
inductive CorrReachable : Correlator → Prop where
  | init : CorrReachable initCorr
  | step {s t : Correlator} : CorrReachable s → CStep s t → CorrReachable t

/-- The complete timeout path of one request as the code runs it when no
response arrives in time: allocate and register, time out, run the
`finally`.  Returns the final state and the sequence number used. -/
def timeoutRun (s : Correlator) : Correlator × Nat :=
  let p := sendStep s
  (timeoutFinalizeStep (waitTimeoutStep p.1 p.2) p.2, p.2)

/-- Invariant: every pending sequence number is below the counter. -/
def pendingBounded (s : Correlator) : Prop :=
  ∀ x ∈ s.pending, x < s.seqCtr

/-- Decimal digits of a number as ASCII codes, most significant first
(how the f-string renders `len(message)` into the header). -/
def natDigits (n : Nat) : List Nat :=
  if n < 10 then [48 + n]
  else natDigits (n / 10) ++ [48 + n % 10]
decreasing_by exact Nat.div_lt_self (by omega) (by omega)

/-- Byte length of one Unicode code point under UTF-8. -/
def utf8CharLen (c : Nat) : Nat :=
  if c < 128 then 1 else if c < 2048 then 2 else if c < 65536 then 3 else 4

/-- UTF-8 byte length of a string given as code points — what
`len(message.encode('utf-8'))` computes at debugpy_client.py line 342. -/
def utf8Len (s : List Nat) : Nat := (s.map utf8CharLen).sum

/-- UTF-8 encoding of one code point. -/
def utf8EncodeChar (c : Nat) : List Nat :=
  if c < 128 then [c]
  else if c < 2048 then [192 + c / 64, 128 + c % 64]
  else if c < 65536 then [224 + c / 4096, 128 + c / 64 % 64, 128 + c % 64]
  else [240 + c / 262144, 128 + c / 4096 % 64, 128 + c / 64 % 64, 128 + c % 64]

/-- UTF-8 encoding of a string of code points — `str.encode('utf-8')`. -/
def utf8Encode (s : List Nat) : List Nat := (s.map utf8EncodeChar).flatten

/-- Lower-case hex digit as an ASCII code, for `\uXXXX` escapes. -/
def hexDigitChar (n : Nat) : Nat := if n < 10 then 48 + n else 87 + n

/-- One `\uXXXX` escape (backslash, 'u', four hex digits) as ASCII codes. -/
def escU (n : Nat) : List Nat :=
  [92, 117, hexDigitChar (n / 4096 % 16), hexDigitChar (n / 256 % 16),
   hexDigitChar (n / 16 % 16), hexDigitChar (n % 16)]

/-- How `json.dumps` (default `ensure_ascii=True`) renders one code point of
a string value: ASCII code points pass through (possibly as short ASCII
escapes, which changes nothing below), non-ASCII ones become `\uXXXX`
escapes, with a surrogate pair for code points beyond the BMP.  This is the
serializer both `_send_request` implementations call before framing. -/
def ensureAsciiChar (c : Nat) : List Nat :=
  if c < 128 then [c]
  else if c < 65536 then escU c
  else escU (55296 + (c - 65536) / 1024) ++ escU (56320 + (c - 65536) % 1024)

/-- Result of `json.dumps` on a body, at the level of its code points. -/
def ensureAscii (s : List Nat) : List Nat := (s.map ensureAsciiChar).flatten

/-- ASCII codes of a literal piece of header text. -/
def strCodes (s : String) : List Nat := s.toList.map Char.toNat

/-- The header block `Content-Length: <n>\r\n\r\n` as code points: the header
line, then the blank line. -/
def contentLengthHeader (n : Nat) : List Nat :=
  strCodes "Content-Length: " ++ natDigits n ++ [13, 10, 13, 10]

/-- Frame built by `DAPClient._send_request` (dap_client.py lines 166-168):
the declared length is `len(message)` — the CHARACTER count of the
serialized body — and the whole f-string is then UTF-8 encoded. -/
def dapFrame (msg : List Nat) : List Nat :=
  utf8Encode (contentLengthHeader msg.length ++ msg)

/-- Frame built by `DebugpyClient._send_request` (debugpy_client.py lines
340-345): the declared length is `len(message.encode('utf-8'))` — the UTF-8
byte count of the serialized body. -/
def debugpyFrame (msg : List Nat) : List Nat :=
  utf8Encode (contentLengthHeader (utf8Len msg) ++ msg)

/-- Adapter that answers every request with `success: true`. -/
def adapterOk : Adapter := fun _ _ => some ⟨true⟩

/-- Adapter whose `initialize` (and every other) response carries
`success: false`. -/
def adapterFail : Adapter := fun _ _ => some ⟨false⟩

/-- Oracle that answers every request with `success: true`. -/
def oracleOk : Oracle := fun _ => some ⟨true⟩

/-- Scenario step 1: a fresh registry with one created session "s". -/
def demoClient1 : DebugpyClient := emptyClient.create_session "s" "localhost" 5678

/-- Scenario step 2: session "s" connected against a compliant adapter. -/
def demoClient2 : DebugpyClient := (demoClient1.connect_session adapterOk true "s").1

/-- Scenario step 3: breakpoint set at a.py line 10 (gets id 1). -/
def demoClient3 : DebugpyClient :=
  (demoClient2.set_breakpoint adapterOk "s" "a.py" 10 none).1

/-- Scenario step 4: second breakpoint at a.py line 20 (gets id 2). -/
def demoClient4 : DebugpyClient :=
  (demoClient3.set_breakpoint adapterOk "s" "a.py" 20 none).1

/-- Scenario step 5: breakpoint id 1 cleared. -/
def demoClient5 : DebugpyClient := (demoClient4.clear_breakpoint adapterOk "s" 1).1

/-- Session "s" with one recorded breakpoint, after an explicit disconnect:
reachable state used to probe operations that need a live connection. -/
def staleClient : DebugpyClient := (demoClient3.disconnect_session "s").1

/-- A connected `DAPClient` about to be told to disconnect. -/
def dapConnected : DAPClient := ⟨true, true, 5, []⟩

/-- Reachable correlator state with one request pending and its caller
blocked in `event.wait`: what the state looks like right after `send`. -/
def lostState : Correlator := (sendStep initCorr).1

/-- Correlator state in which a response is stored for sequence number 1
although no waiter for 1 is pending any more — the state reached when a
response arrives in the window between timeout expiry and the `finally`
block's pop. -/
def orphanState : Correlator := ⟨2, [], [(1, true)], [1], [], [], [(1, none)]⟩


/-- Membership in the association map, characterized at the Prop level. -/
theorem memM_true_iff {α : Type} (m : List (String × α)) (k : String) :
    memM m k = true ↔ ∃ p ∈ m, p.1 = k := by
  simp [memM, List.any_eq_true]

/-- Inserting a binding makes its key found with its value. -/
theorem lookupM_insertM_self {α : Type} (m : List (String × α)) (k : String) (v : α) :
    lookupM (insertM m k v) k = some v := by
  simp [lookupM, insertM, List.find?_cons]

/-- A key just inserted is a member. -/
theorem memM_insertM_self {α : Type} (m : List (String × α)) (k : String) (v : α) :
    memM (insertM m k v) k = true := by
  simp [memM, insertM]

/-- Membership after an insertion: the inserted key, or a surviving old key. -/
theorem memM_insertM_iff {α : Type} (m : List (String × α)) (k : String) (v : α)
    (k2 : String) : memM (insertM m k v) k2 = true ↔ k2 = k ∨ memM m k2 = true := by
  simp only [memM_true_iff, insertM, eraseM, List.mem_cons, List.mem_filter]
  constructor
  · rintro ⟨p, hp | ⟨hp, _⟩, hk⟩
    · exact Or.inl (by rw [← hk, hp])
    · exact Or.inr ⟨p, hp, hk⟩
  · rintro (rfl | ⟨p, hp, hk⟩)
    · exact ⟨(k2, v), Or.inl rfl, rfl⟩
    · by_cases hkk : k2 = k
      · exact ⟨(k, v), Or.inl rfl, hkk.symm⟩
      · exact ⟨p, Or.inr ⟨hp, by simp [hk, hkk]⟩, hk⟩

/-- Updating a value in place never changes the key set. -/
theorem memM_updateM {α : Type} (m : List (String × α)) (k : String) (f : α → α)
    (k2 : String) : memM (updateM m k f) k2 = memM m k2 := by
  rw [Bool.eq_iff_iff, memM_true_iff, memM_true_iff]
  simp only [updateM, List.mem_map]
  constructor
  · rintro ⟨p, ⟨q, hq, rfl⟩, hk⟩
    refine ⟨q, hq, ?_⟩
    by_cases h : q.1 = k
    · simpa [h] using hk
    · simpa [h] using hk
  · rintro ⟨p, hp, hk⟩
    by_cases h : p.1 = k
    · exact ⟨(p.1, f p.2), ⟨p, hp, by simp [h]⟩, hk⟩
    · exact ⟨p, ⟨p, hp, by simp [h]⟩, hk⟩

/-- A key that is not a member has no binding. -/
theorem lookupM_eq_none {α : Type} (m : List (String × α)) (k : String)
    (h : memM m k = false) : lookupM m k = none := by
  have hall : ∀ p ∈ m, ¬(p.1 == k) = true := by
    intro p hp
    simp only [memM, List.any_eq_false] at h
    simpa using h p hp
  simp [lookupM, List.find?_eq_none.mpr hall]


theorem send_request_sessions (c : DebugpyClient) (a : Adapter)
    (sid cmd : String) (args : ReqArgs) :
    (c.send_request a sid cmd args).1.sessions = c.sessions := by
  unfold DebugpyClient.send_request
  split <;> rfl

theorem send_request_breakpoints (c : DebugpyClient) (a : Adapter)
    (sid cmd : String) (args : ReqArgs) :
    (c.send_request a sid cmd args).1.breakpoints = c.breakpoints := by
  unfold DebugpyClient.send_request
  split <;> rfl

theorem connect_session_keys (c : DebugpyClient) (a : Adapter) (ok : Bool)
    (sid : String) :
    (c.connect_session a ok sid).1.breakpoints = c.breakpoints ∧
    ∀ k, memM (c.connect_session a ok sid).1.sessions k = memM c.sessions k := by
  unfold DebugpyClient.connect_session
  split
  · split
    · refine ⟨?_, fun k => ?_⟩
      · dsimp only
        rw [send_request_breakpoints]
      · dsimp only
        rw [memM_updateM, send_request_sessions]
    · refine ⟨rfl, fun k => ?_⟩
      dsimp only
      rw [memM_updateM]
  · exact ⟨rfl, fun k => rfl⟩

theorem set_breakpoint_keys (c : DebugpyClient) (a : Adapter)
    (sid fp : String) (ln : Nat) (cond : Option String) :
    (c.set_breakpoint a sid fp ln cond).1.sessions = c.sessions ∧
    ∀ k, memM (c.set_breakpoint a sid fp ln cond).1.breakpoints k = memM c.breakpoints k := by
  unfold DebugpyClient.set_breakpoint
  split
  · exact ⟨rfl, fun k => rfl⟩
  · split
    · split
      · exact ⟨rfl, fun k => rfl⟩
      · dsimp only
        split
        · split
          · refine ⟨?_, fun k => ?_⟩
            · dsimp only
              rw [send_request_sessions]
            · dsimp only
              rw [memM_updateM, send_request_breakpoints]
          · exact ⟨send_request_sessions .., fun k => by rw [send_request_breakpoints]⟩
        · exact ⟨send_request_sessions .., fun k => by rw [send_request_breakpoints]⟩
    · exact ⟨rfl, fun k => rfl⟩

theorem disconnect_session_keys (c : DebugpyClient) (sid : String) :
    (c.disconnect_session sid).1.breakpoints = c.breakpoints ∧
    ∀ k, memM (c.disconnect_session sid).1.sessions k = memM c.sessions k := by
  unfold DebugpyClient.disconnect_session
  split
  · refine ⟨rfl, fun k => ?_⟩
    dsimp only
    rw [memM_updateM]
  · exact ⟨rfl, fun k => rfl⟩

theorem clear_breakpoint_keys (c : DebugpyClient) (a : Adapter)
    (sid : String) (bpId : Nat) :
    (c.clear_breakpoint a sid bpId).1.sessions = c.sessions ∧
    ∀ k, memM (c.clear_breakpoint a sid bpId).1.breakpoints k = memM c.breakpoints k := by
  unfold DebugpyClient.clear_breakpoint
  split
  · exact ⟨rfl, fun k => rfl⟩
  · split
    · exact ⟨rfl, fun k => rfl⟩
    · refine ⟨?_, fun k => ?_⟩
      · dsimp only
        rw [send_request_sessions]
      · dsimp only
        rw [memM_updateM, send_request_breakpoints]

/-- Registry invariant of claim C10: every id in the sessions map has an
entry in the breakpoints map. -/
def sessionsHaveBpEntry (c : DebugpyClient) : Prop :=
  ∀ sid : String, memM c.sessions sid = true → memM c.breakpoints sid = true

/-- Two clients whose sessions maps agree on every key. -/
def sameSessionKeys (c d : DebugpyClient) : Prop :=
  ∀ sid : String, memM c.sessions sid = memM d.sessions sid

/-- One call into the session registry, as the MCP tool layer issues them. -/
inductive RegOp where
  | create (sid host : String) (port : Nat)
  | connect (sid : String) (sockOk : Bool)
  | disconnect (sid : String)
  | setBp (sid fp : String) (line : Nat) (cond : Option String)
  | clearBp (sid : String) (bpId : Nat)

/-- State reached after one registry call (results discarded). -/
def applyOp (adapter : Adapter) (c : DebugpyClient) : RegOp → DebugpyClient
  | .create sid host port => c.create_session sid host port
  | .connect sid ok => (c.connect_session adapter ok sid).1
  | .disconnect sid => (c.disconnect_session sid).1
  | .setBp sid fp ln cond => (c.set_breakpoint adapter sid fp ln cond).1
  | .clearBp sid bpId => (c.clear_breakpoint adapter sid bpId).1

/-- State of the registry after a whole call sequence against a fresh client. -/
def runOps (adapter : Adapter) (ops : List RegOp) : DebugpyClient :=
  ops.foldl (applyOp adapter) emptyClient

/-- Every single registry call preserves the C10 invariant. -/
theorem applyOp_preserves_inv (a : Adapter) (c : DebugpyClient) (op : RegOp)
    (h : sessionsHaveBpEntry c) : sessionsHaveBpEntry (applyOp a c op) := by
  cases op with
  | create sid host port =>
    intro k hk
    unfold applyOp DebugpyClient.create_session at hk ⊢
    rcases (memM_insertM_iff ..).mp hk with rfl | hmem
    · exact memM_insertM_self ..
    · exact (memM_insertM_iff ..).mpr (Or.inr (h k hmem))
  | connect sid ok =>
    intro k hk
    obtain ⟨hbp, hmem⟩ := connect_session_keys c a ok sid
    unfold applyOp at hk ⊢
    rw [hmem k] at hk
    rw [hbp]
    exact h k hk
  | disconnect sid =>
    intro k hk
    obtain ⟨hbp, hmem⟩ := disconnect_session_keys c sid
    unfold applyOp at hk ⊢
    rw [hmem k] at hk
    rw [hbp]
    exact h k hk
  | setBp sid fp ln cond =>
    intro k hk
    obtain ⟨hs, hmem⟩ := set_breakpoint_keys c a sid fp ln cond
    unfold applyOp at hk ⊢
    rw [hs] at hk
    rw [hmem k]
    exact h k hk
  | clearBp sid bpId =>
    intro k hk
    obtain ⟨hs, hmem⟩ := clear_breakpoint_keys c a sid bpId
    unfold applyOp at hk ⊢
    rw [hs] at hk
    rw [hmem k]
    exact h k hk

/-- The invariant propagates along any call sequence. -/
theorem foldl_preserves_inv (a : Adapter) (ops : List RegOp) (c : DebugpyClient)
    (h : sessionsHaveBpEntry c) :
    sessionsHaveBpEntry (ops.foldl (applyOp a) c) := by
  induction ops generalizing c with
  | nil => exact h
  | cons op rest ih => exact ih _ (applyOp_preserves_inv a c op h)

theorem natDigits_ascii (n : Nat) : ∀ c ∈ natDigits n, c < 128 := by
  induction n using Nat.strong_induction_on with
  | _ n ih =>
    rw [natDigits]
    split
    · intro c hc
      simp only [List.mem_singleton] at hc
      omega
    · intro c hc
      rw [List.mem_append] at hc
      rcases hc with h | h
      · exact ih (n / 10) (Nat.div_lt_self (by omega) (by omega)) c h
      · simp only [List.mem_singleton] at h
        have := Nat.mod_lt n (y := 10) (by omega)
        omega

theorem hexDigitChar_lt (n : Nat) (h : n < 16) : hexDigitChar n < 128 := by
  unfold hexDigitChar
  split <;> omega

theorem escU_ascii (n : Nat) : ∀ c ∈ escU n, c < 128 := by
  intro c hc
  unfold escU at hc
  simp only [List.mem_cons, List.mem_singleton] at hc
  rcases hc with rfl | rfl | rfl | rfl | rfl | rfl | h
  · omega
  · omega
  · exact hexDigitChar_lt _ (Nat.mod_lt _ (by omega))
  · exact hexDigitChar_lt _ (Nat.mod_lt _ (by omega))
  · exact hexDigitChar_lt _ (Nat.mod_lt _ (by omega))
  · exact hexDigitChar_lt _ (Nat.mod_lt _ (by omega))
  · cases h

theorem ensureAsciiChar_ascii (c : Nat) : ∀ x ∈ ensureAsciiChar c, x < 128 := by
  intro x hx
  unfold ensureAsciiChar at hx
  split at hx
  · simp only [List.mem_singleton] at hx
    omega
  · split at hx
    · exact escU_ascii _ x hx
    · rw [List.mem_append] at hx
      rcases hx with h | h
      · exact escU_ascii _ x h
      · exact escU_ascii _ x h

theorem ensureAscii_ascii (s : List Nat) : ∀ x ∈ ensureAscii s, x < 128 := by
  intro x hx
  unfold ensureAscii at hx
  rw [List.mem_flatten] at hx
  obtain ⟨l, hl, hxl⟩ := hx
  rw [List.mem_map] at hl
  obtain ⟨c, _, rfl⟩ := hl
  exact ensureAsciiChar_ascii c x hxl

theorem utf8Encode_ascii (s : List Nat) (h : ∀ c ∈ s, c < 128) :
    utf8Encode s = s := by
  induction s with
  | nil => rfl
  | cons c rest ih =>
    have hc : c < 128 := h c (List.mem_cons_self ..)
    have hrest := ih (fun x hx => h x (List.mem_cons_of_mem _ hx))
    unfold utf8Encode utf8EncodeChar at hrest ⊢
    simp only [List.map_cons, List.flatten_cons, if_pos hc]
    rw [hrest]
    rfl

theorem utf8Len_ascii (s : List Nat) (h : ∀ c ∈ s, c < 128) :
    utf8Len s = s.length := by
  induction s with
  | nil => rfl
  | cons c rest ih =>
    have hc : c < 128 := h c (List.mem_cons_self ..)
    have hrest := ih (fun x hx => h x (List.mem_cons_of_mem _ hx))
    unfold utf8Len utf8CharLen at hrest ⊢
    simp only [List.map_cons, List.sum_cons, if_pos hc, List.length_cons]
    omega

theorem utf8Encode_append (a b : List Nat) :
    utf8Encode (a ++ b) = utf8Encode a ++ utf8Encode b := by
  unfold utf8Encode
  rw [List.map_append, List.flatten_append]

theorem contentLengthHeader_ascii (n : Nat) :
    ∀ c ∈ contentLengthHeader n, c < 128 := by
  intro c hc
  unfold contentLengthHeader at hc
  simp only [List.mem_append] at hc
  rcases hc with (h | h) | h
  · revert h
    have : ∀ c ∈ strCodes "Content-Length: ", c < 128 := by decide
    exact this c
  · exact natDigits_ascii n c h
  · simp only [List.mem_cons, List.mem_singleton] at h
    rcases h with rfl | rfl | rfl | rfl | h
    · omega
    · omega
    · omega
    · omega
    · cases h

/-- C6: for every request body, including bodies with non-ASCII characters,
the frame built by either `_send_request` consists of an ASCII
`Content-Length: ` header line declaring exactly the UTF-8 byte length of
the serialized JSON body, a blank line (CRLF CRLF), then the body bytes.
`DAPClient._send_request` declares `len(message)` — the character count —
but since `json.dumps` runs with its default `ensure_ascii=True`, every
non-ASCII code point of the body is escaped to `\uXXXX` form, the serialized
body is pure ASCII, and the character count equals the UTF-8 byte count;
`DebugpyClient._send_request` computes the byte count directly. -/
theorem frame_declares_exact_byte_length_c6 (body : List Nat) :
    dapFrame (ensureAscii body) =
      strCodes "Content-Length: " ++ natDigits (utf8Len (ensureAscii body)) ++
        [13, 10, 13, 10] ++ ensureAscii body ∧
    debugpyFrame (ensureAscii body) =
      strCodes "Content-Length: " ++ natDigits (utf8Len (ensureAscii body)) ++
        [13, 10, 13, 10] ++ ensureAscii body ∧
    utf8Len (ensureAscii body) = (ensureAscii body).length := by
  have hA := ensureAscii_ascii body
  have hLen := utf8Len_ascii _ hA
  refine ⟨?_, ?_, hLen⟩
  · unfold dapFrame
    rw [utf8Encode_append, utf8Encode_ascii _ (contentLengthHeader_ascii _),
        utf8Encode_ascii _ hA, hLen]
    unfold contentLengthHeader
    simp [List.append_assoc]
  · unfold debugpyFrame
    rw [utf8Encode_append, utf8Encode_ascii _ (contentLengthHeader_ascii _),
        utf8Encode_ascii _ hA]
    unfold contentLengthHeader
    simp [List.append_assoc]

theorem handleResponse_not_pending (s : Correlator) (seq : Nat) (msg : Bool)
    (h : seq ∉ s.pending) : handleResponse s seq msg = s := by
  unfold handleResponse
  rw [if_neg]
  simpa using h

/-- C3: when no matching response arrives within the fixed 10-second
timeout, the request's run through the correlator (register, time out, run
the `finally`) is a valid step sequence after which the waiter is removed
from `pending_requests` and the call has finished with the failure result
`none`; a response arriving later for that removed sequence number is
silently discarded by `_handle_message` — the state is left unchanged. -/
theorem timeout_discards_late_response_c3 (s : Correlator) (msg : Bool)
    (h : s.seqCtr ∉ s.eventSet) :
    Relation.ReflTransGen CStep s (timeoutRun s).1 ∧
    (timeoutRun s).2 ∉ (timeoutRun s).1.pending ∧
    ((timeoutRun s).2, (none : Option Bool)) ∈ (timeoutRun s).1.done ∧
    handleResponse (timeoutRun s).1 (timeoutRun s).2 msg = (timeoutRun s).1 ∧
    requestTimeoutSeconds = 10 := by
  have hw : s.seqCtr ∈ (sendStep s).1.waiting := by
    simp [sendStep]
  have he : s.seqCtr ∉ (sendStep s).1.eventSet := by
    simpa [sendStep] using h
  have st1 : CStep s (sendStep s).1 := CStep.send s
  have st2 : CStep (sendStep s).1 (waitTimeoutStep (sendStep s).1 s.seqCtr) :=
    CStep.waitTo _ s.seqCtr hw he
  have ht : s.seqCtr ∈ (waitTimeoutStep (sendStep s).1 s.seqCtr).timedOut := by
    simp [waitTimeoutStep]
  have st3 : CStep (waitTimeoutStep (sendStep s).1 s.seqCtr)
      (timeoutFinalizeStep (waitTimeoutStep (sendStep s).1 s.seqCtr) s.seqCtr) :=
    CStep.toFin _ s.seqCtr ht
  have hpend : (timeoutRun s).2 ∉ (timeoutRun s).1.pending := by
    simp [timeoutRun, sendStep, waitTimeoutStep, timeoutFinalizeStep, List.mem_filter]
  refine ⟨?_, hpend, ?_, ?_, rfl⟩
  · exact Relation.ReflTransGen.head st1
      (Relation.ReflTransGen.head st2 (Relation.ReflTransGen.single st3))
  · simp [timeoutRun, sendStep, waitTimeoutStep, timeoutFinalizeStep]
  · exact handleResponse_not_pending _ _ _ hpend

/-- Witness for C3: the timeout path run from a fresh correlator, with the
late response delivered afterwards. -/
theorem timeout_discards_late_response_c3_witness :
    initCorr.seqCtr ∉ initCorr.eventSet ∧
    (Relation.ReflTransGen CStep initCorr (timeoutRun initCorr).1 ∧
     (timeoutRun initCorr).2 ∉ (timeoutRun initCorr).1.pending ∧
     ((timeoutRun initCorr).2, (none : Option Bool)) ∈ (timeoutRun initCorr).1.done ∧
     handleResponse (timeoutRun initCorr).1 (timeoutRun initCorr).2 true = (timeoutRun initCorr).1 ∧
     requestTimeoutSeconds = 10) :=
  ⟨by decide, timeout_discards_late_response_c3 initCorr true (by decide)⟩

/-- Counterexample for C4: in the reachable state `lostState` one request is
pending, yet the receive-loop exit path resolves nothing — `pending` still
holds the waiter and `done` is empty after it runs; the waiter only completes
later through its own timeout steps, and the result it then gets is the
generic `none` failure of the timeout path, not a ConnectionLost error. -/
theorem receive_loop_exit_resolves_nothing_c4 :
    CorrReachable lostState ∧
    receiveLoopExit lostState = lostState ∧
    lostState.pending = [1] ∧
    lostState.done = [] ∧
    (timeoutFinalizeStep (waitTimeoutStep lostState 1) 1).done = [(1, (none : Option Bool))] ∧
    (timeoutFinalizeStep (waitTimeoutStep lostState 1) 1).pending = [] := by
  exact ⟨CorrReachable.step CorrReachable.init (CStep.send initCorr),
    rfl, by decide, by decide, by decide, by decide⟩

/-- C4 as amended: the receive-loop exit resolves no waiter itself
(`receiveLoopExit` is the identity on correlator state), but every waiter
still blocked in `event.wait` completes through its own fixed 10-second
timeout — its entry is removed from `pending` and it finishes with the
generic `none` failure — so no waiter is left unresolved forever. -/
theorem pending_resolves_by_timeout_after_exit_c4 (s : Correlator) (seq : Nat)
    (h1 : seq ∈ s.waiting) (h2 : seq ∉ s.eventSet) :
    receiveLoopExit s = s ∧
    Relation.ReflTransGen CStep (receiveLoopExit s)
      (timeoutFinalizeStep (waitTimeoutStep s seq) seq) ∧
    (seq, (none : Option Bool)) ∈ (timeoutFinalizeStep (waitTimeoutStep s seq) seq).done ∧
    seq ∉ (timeoutFinalizeStep (waitTimeoutStep s seq) seq).pending ∧
    requestTimeoutSeconds = 10 := by
  refine ⟨rfl, ?_, ?_, ?_, rfl⟩
  · have st1 : CStep s (waitTimeoutStep s seq) := CStep.waitTo s seq h1 h2
    have ht : seq ∈ (waitTimeoutStep s seq).timedOut := by simp [waitTimeoutStep]
    exact Relation.ReflTransGen.head st1
      (Relation.ReflTransGen.single (CStep.toFin _ seq ht))
  · simp [timeoutFinalizeStep]
  · simp [timeoutFinalizeStep, waitTimeoutStep, List.mem_filter]

/-- Witness for the amended C4 at the reachable one-pending state. -/
theorem pending_resolves_by_timeout_after_exit_c4_witness :
    1 ∈ lostState.waiting ∧ 1 ∉ lostState.eventSet ∧
    (receiveLoopExit lostState = lostState ∧
     Relation.ReflTransGen CStep (receiveLoopExit lostState)
       (timeoutFinalizeStep (waitTimeoutStep lostState 1) 1) ∧
     (1, (none : Option Bool)) ∈ (timeoutFinalizeStep (waitTimeoutStep lostState 1) 1).done ∧
     1 ∉ (timeoutFinalizeStep (waitTimeoutStep lostState 1) 1).pending ∧
     requestTimeoutSeconds = 10) :=
  ⟨by decide, by decide,
   pending_resolves_by_timeout_after_exit_c4 lostState 1 (by decide) (by decide)⟩

/-- Counterexample for C5: `orphanState`, in which `responses` stores a
response for sequence number 1 while no waiter for 1 is pending, is reachable
— send, wait expires, the response arrives before the `finally` pop (so the
waiter is still registered and the response is stored), then the `finally`
pop removes the waiter and leaves the stored response behind. -/
theorem orphan_stored_response_c5 :
    CorrReachable orphanState ∧
    lookupN orphanState.responses 1 = some true ∧
    orphanState.pending = [] := by
  refine ⟨?_, by decide, by decide⟩
  have h1 : CorrReachable (sendStep initCorr).1 :=
    CorrReachable.step CorrReachable.init (CStep.send initCorr)
  have h2 : CorrReachable (waitTimeoutStep (sendStep initCorr).1 1) :=
    CorrReachable.step h1 (CStep.waitTo _ 1 (by decide) (by decide))
  have h3 : CorrReachable (handleResponse (waitTimeoutStep (sendStep initCorr).1 1) 1 true) :=
    CorrReachable.step h2 (CStep.recv _ 1 true)
  have h4 : CorrReachable (timeoutFinalizeStep
      (handleResponse (waitTimeoutStep (sendStep initCorr).1 1) 1 true) 1) :=
    CorrReachable.step h3 (CStep.toFin _ 1 (by decide))
  have he : timeoutFinalizeStep
      (handleResponse (waitTimeoutStep (sendStep initCorr).1 1) 1 true) 1 = orphanState := by
    decide
  exact he ▸ h4

/-- Every correlator step preserves uniqueness and boundedness of the
in-flight sequence numbers. -/
theorem cstep_preserves_unique {a b : Correlator} (st : CStep a b)
    (hnd : a.pending.Nodup) (hb : pendingBounded a) :
    b.pending.Nodup ∧ pendingBounded b := by
  cases st with
  | send =>
    refine ⟨?_, ?_⟩
    · rw [show (sendStep a).1.pending = a.seqCtr :: a.pending from rfl]
      exact List.nodup_cons.mpr ⟨fun hmem => absurd (hb _ hmem) (lt_irrefl _), hnd⟩
    · intro x hx
      rw [show (sendStep a).1.pending = a.seqCtr :: a.pending from rfl] at hx
      rw [show (sendStep a).1.seqCtr = a.seqCtr + 1 from rfl]
      rcases List.mem_cons.mp hx with rfl | hx2
      · omega
      · have := hb x hx2
        omega
  | recv seq msg =>
    unfold handleResponse
    split
    · exact ⟨hnd, hb⟩
    · exact ⟨hnd, hb⟩
  | waitOk seq h1 h2 =>
    refine ⟨hnd.filter _, ?_⟩
    intro x hx
    rw [show (waitSuccessStep a seq).1.pending
          = a.pending.filter (fun x => x != seq) from rfl] at hx
    exact hb x (List.mem_filter.mp hx).1
  | waitTo seq h1 h2 =>
    exact ⟨hnd, hb⟩
  | toFin seq h1 =>
    refine ⟨hnd.filter _, ?_⟩
    intro x hx
    rw [show (timeoutFinalizeStep a seq).pending
          = a.pending.filter (fun x => x != seq) from rfl] at hx
    exact hb x (List.mem_filter.mp hx).1

/-- C5 as amended: in every reachable correlator state the in-flight sequence
numbers are pairwise distinct (no two outstanding requests share one) and all
below the counter; the third part of the claim fails — see the orphan-state
counterexample. -/
theorem inflight_seq_unique_c5 (s : Correlator) (h : CorrReachable s) :
    s.pending.Nodup ∧ pendingBounded s := by
  induction h with
  | init => exact ⟨List.nodup_nil, fun x hx => absurd hx (List.not_mem_nil x)⟩
  | step hr st ih => exact cstep_preserves_unique st ih.1 ih.2

/-- Witness for the amended C5 at the initial correlator state. -/
theorem inflight_seq_unique_c5_witness :
    CorrReachable initCorr ∧ (initCorr.pending.Nodup ∧ pendingBounded initCorr) :=
  ⟨CorrReachable.init, inflight_seq_unique_c5 initCorr CorrReachable.init⟩

/-- C1 evaluated at the failing input: with two breakpoints on a.py (id 1 at
line 10, id 2 at line 20), clearing id 1 removes exactly that breakpoint from
the session's local list, but the `setBreakpoints` request resent to the
adapter carries an EMPTY breakpoint list for a.py — not the remaining
breakpoint at line 20 the claim requires — so the sibling breakpoint is
dropped on the adapter side. -/
theorem clear_breakpoint_sends_empty_list_c1 :
    (demoClient4.clear_breakpoint adapterOk "s" 1).2 = true ∧
    ((demoClient4.clear_breakpoint adapterOk "s" 1).1.list_breakpoints "s").map
      Breakpoint.line_number = [20] ∧
    (demoClient4.clear_breakpoint adapterOk "s" 1).1.sent.getLast? =
      some ⟨4, "setBreakpoints", ReqArgs.setBps "a.py" []⟩ ∧
    (demoClient4.clear_breakpoint adapterOk "s" 1).1.sent.getLast? ≠
      some ⟨4, "setBreakpoints", ReqArgs.setBps "a.py" [⟨20, none⟩]⟩ :=
  ⟨rfl, rfl, rfl, by decide⟩

/-- Counterexample for C2: against an adapter whose `initialize` response
carries success false, `connect_session` still returns true and marks the
session connected, where the claim requires it to return false and leave the
session disconnected. -/
theorem connect_ignores_init_failure_c2 :
    (demoClient1.connect_session adapterFail true "s").2 = true ∧
    ((demoClient1.connect_session adapterFail true "s").1.get_session "s").map
      DebugSession.is_connected = some true :=
  ⟨rfl, rfl⟩

/-- Amended-C2 component: `DAPClient.connect` writes `configurationDone` to
the socket only when the `initialize` response exists and carries success. -/
def configAfterInitOnly : Prop :=
  ∀ (oracle : Oracle) (c : DAPClient) (ok : Bool) (p : Nat × String),
    p ∈ (c.connect oracle ok).1.sent → p.2 = "configurationDone" →
    p ∈ c.sent ∨ ∃ r : DAPResponse, oracle "initialize" = some r ∧ r.success = true

/-- Amended-C2 component: a missing or unsuccessful `initialize` response
makes `DAPClient.connect` return false without sending `configurationDone`. -/
def initFailureShortCircuits : Prop :=
  ∀ (oracle : Oracle) (c : DAPClient) (ok : Bool),
    (oracle "initialize" = none ∨ oracle "initialize" = some ⟨false⟩) →
    (c.connect oracle ok).2 = false

/-- Amended-C2 component: `DebugpyClient.connect_session` returns true for
any known session whenever the socket connects, whatever the adapter answers
to `initialize`. -/
def connectSessionIgnoresInit : Prop :=
  ∀ (c : DebugpyClient) (adapter : Adapter) (sid : String),
    memM c.sessions sid = true → (c.connect_session adapter true sid).2 = true

/-- C2 as amended: in `DAPClient.connect` the `configurationDone` request is
sent only after `initialize` returns success, and a failed or missing
`initialize` response short-circuits connect to false; but
`DebugpyClient.connect_session` ignores the `initialize` response entirely —
it returns true and marks the session connected whenever the socket
connects, so the `connectSession returns false` half of the claim fails. -/
theorem connect_handshake_amended_c2 :
    configAfterInitOnly ∧ initFailureShortCircuits ∧ connectSessionIgnoresInit := by
  refine ⟨?_, ?_, ?_⟩
  · intro oracle c ok p hp hcmd
    cases ok with
    | false => exact Or.inl hp
    | true =>
      unfold DAPClient.connect DAPClient.send_request at hp
      cases hi : oracle "initialize" with
      | none =>
        rw [hi] at hp
        simp only [Bool.and_self, eq_self_iff_true, if_true, List.mem_append,
          List.mem_singleton] at hp
        rcases hp with hp | hp
        · exact Or.inl hp
        · rw [hp] at hcmd
          simp at hcmd
      | some r =>
        rw [hi] at hp
        simp only [Bool.and_self, eq_self_iff_true, if_true] at hp
        by_cases hs : r.success = true
        · rw [if_pos hs] at hp
          simp only [List.mem_append, List.mem_singleton] at hp
          rcases hp with (hp | hp) | hp
          · exact Or.inl hp
          · rw [hp] at hcmd
            simp at hcmd
          · exact Or.inr ⟨r, rfl, hs⟩
        · rw [if_neg hs] at hp
          simp only [List.mem_append, List.mem_singleton] at hp
          rcases hp with hp | hp
          · exact Or.inl hp
          · rw [hp] at hcmd
            simp at hcmd
  · intro oracle c ok hfail
    cases ok with
    | false => rfl
    | true =>
      unfold DAPClient.connect DAPClient.send_request
      rcases hfail with hf | hf <;> simp [hf]
  · intro c adapter sid hmem
    unfold DebugpyClient.connect_session
    rw [if_pos hmem]
    rfl

/-- Amended-C7 component: `set_breakpoint` fails with `None` whenever the
session is known but not connected. -/
def setBpNeedsConnection : Prop :=
  ∀ (d : DebugpyClient) (a : Adapter) (sid fp : String) (ln : Nat)
    (cond : Option String) (s : DebugSession),
    lookupM d.sessions sid = some s → s.is_connected = false →
    (d.set_breakpoint a sid fp ln cond).2 = none

/-- Counterexample for C7: on the reachable state `staleClient` the session
"s" is known but disconnected, yet `clear_breakpoint` succeeds (returning
true, sending nothing) instead of failing with a SessionNotConnected error;
`list_breakpoints` on an unknown id returns a plain empty list instead of a
SessionNotFound error. -/
theorem clear_succeeds_without_connection_c7 :
    ((staleClient.get_session "s").map DebugSession.is_connected = some false) ∧
    staleClient.connections = [] ∧
    (staleClient.clear_breakpoint adapterOk "s" 1).2 = true ∧
    (staleClient.clear_breakpoint adapterOk "s" 1).1.sent = staleClient.sent ∧
    staleClient.list_breakpoints "nosuch" = [] :=
  ⟨rfl, rfl, rfl, rfl, rfl⟩

/-- C7 as amended: for an unknown session id, `disconnect_session` returns
false, `set_breakpoint` returns None and `clear_breakpoint` returns false
(the failure values standing in for SessionNotFound), while
`list_breakpoints` does NOT fail — it returns an empty list; and of the
operations needing a live connection only `set_breakpoint` fails on a
disconnected session, `clear_breakpoint` succeeding locally as the
counterexample shows. -/
theorem session_errors_amended_c7 (c : DebugpyClient) (adapter : Adapter) (sid : String)
    (h1 : memM c.sessions sid = false) (h2 : memM c.breakpoints sid = false) :
    (c.disconnect_session sid).2 = false ∧
    (c.set_breakpoint adapter sid "f.py" 1 none).2 = none ∧
    (c.clear_breakpoint adapter sid 1).2 = false ∧
    c.list_breakpoints sid = [] ∧
    setBpNeedsConnection ∧
    (staleClient.clear_breakpoint adapterOk "s" 1).2 = true := by
  refine ⟨?_, ?_, ?_, ?_, ?_, rfl⟩
  · simp [DebugpyClient.disconnect_session, h1]
  · simp [DebugpyClient.set_breakpoint, lookupM_eq_none _ _ h1]
  · simp [DebugpyClient.clear_breakpoint, lookupM_eq_none _ _ h2]
  · simp [DebugpyClient.list_breakpoints, lookupM_eq_none _ _ h2]
  · intro d a sid2 fp ln cond s hl hc
    simp [DebugpyClient.set_breakpoint, hl, hc]

/-- Witness for the amended C7 at the empty client and an unknown id. -/
theorem session_errors_amended_c7_witness :
    memM emptyClient.sessions "z" = false ∧
    memM emptyClient.breakpoints "z" = false ∧
    ((emptyClient.disconnect_session "z").2 = false ∧
     (emptyClient.set_breakpoint adapterOk "z" "f.py" 1 none).2 = none ∧
     (emptyClient.clear_breakpoint adapterOk "z" 1).2 = false ∧
     emptyClient.list_breakpoints "z" = [] ∧
     setBpNeedsConnection ∧
     (staleClient.clear_breakpoint adapterOk "s" 1).2 = true) :=
  ⟨rfl, rfl, session_errors_amended_c7 emptyClient adapterOk "z" rfl rfl⟩

/-- C8 evaluated at the failing input: ids are assigned as
`len(breakpoints[session]) + 1`, so after set(line 10) → id 1, set(line 20)
→ id 2, clear(id 1), a third set(line 30) again receives id 2 — two
recorded breakpoints of the session share an id and assignment is not
strictly increasing, contradicting the claim (and the `models.Breakpoint`
doc that calls the id unique). -/
theorem duplicate_breakpoint_id_c8 :
    ((demoClient5.set_breakpoint adapterOk "s" "a.py" 30 none).1.list_breakpoints "s").map
      Breakpoint.breakpoint_id = [2, 2] ∧
    ((demoClient5.set_breakpoint adapterOk "s" "a.py" 30 none).1.list_breakpoints "s").map
      Breakpoint.line_number = [20, 30] :=
  ⟨rfl, rfl⟩

/-- C9 evaluated at the failing input: `disconnect` clears `is_connected`
BEFORE calling `_send_request("disconnect")`, whose guard therefore returns
`None` without writing anything — for any adapter behaviour the sent log of
a connected client never grows, so no best-effort disconnect request ever
reaches the socket; the socket is still closed and the flag cleared. -/
theorem disconnect_sends_no_request_c9 (oracle : Oracle) :
    (dapConnected.disconnect oracle).sent = dapConnected.sent ∧
    (dapConnected.disconnect oracle).socketOpen = false ∧
    (dapConnected.disconnect oracle).is_connected = false ∧
    dapConnected.sent = [] :=
  ⟨rfl, rfl, rfl, rfl⟩

/-- C10: after any sequence of registry calls against a fresh client, every
session id in the sessions map has an entry in the breakpoints map;
`create_session` installs both entries together and `list_breakpoints`
immediately after creation returns the empty list; `disconnect_session`
removes entries from neither map. -/
theorem registry_invariant_c10 (adapter : Adapter) (ops : List RegOp)
    (sid host : String) (port : Nat) :
    sessionsHaveBpEntry (runOps adapter ops) ∧
    memM ((runOps adapter ops).create_session sid host port).sessions sid = true ∧
    memM ((runOps adapter ops).create_session sid host port).breakpoints sid = true ∧
    ((runOps adapter ops).create_session sid host port).list_breakpoints sid = [] ∧
    ((runOps adapter ops).disconnect_session sid).1.breakpoints
      = (runOps adapter ops).breakpoints ∧
    sameSessionKeys (runOps adapter ops) ((runOps adapter ops).disconnect_session sid).1 := by
  refine ⟨?_, ?_, ?_, ?_, ?_, ?_⟩
  · exact foldl_preserves_inv adapter ops emptyClient (fun k hk => Bool.noConfusion hk)
  · exact memM_insertM_self ..
  · exact memM_insertM_self ..
  · simp [DebugpyClient.list_breakpoints, DebugpyClient.create_session,
      lookupM_insertM_self]
  · exact (disconnect_session_keys ..).1
  · exact fun k => ((disconnect_session_keys ..).2 k).symm
